import Mathlib

set_option maxRecDepth 100000

/-!
Shallow embedding of the ECS150FS reference implementation
(src/libuthread/fs.c) and verification of its specification claims.

Modelling conventions:
* C strings passed as arguments are `List Nat` of their non-NUL bytes.
* Fixed-size byte fields (the 16-byte filename field, the 9-byte padding)
  are `List Nat` holding the raw field bytes.
* `int16_t dataBlockInd` is stored as its 16-bit unsigned pattern
  (so the source's `-1` store appears as `65535`).
* `uint8_t num_fd_pointers` wraps mod 256 on increment/decrement.
* The virtual disk is a function from block number to block contents.
* An out-of-bounds array access in the source (undefined behaviour in C)
  is modelled by an `Option` result: the operation yields `none`.
-/

def BLOCK_SIZE : Nat := 4096
def FS_FILE_MAX_COUNT : Nat := 128
def FS_OPEN_MAX_COUNT : Nat := 32
def FS_FILENAME_LEN : Nat := 16
def FAT_EOC : Nat := 65535

/-- `struct superblock_t` (fs.c lines 49-57); the 4079 padding bytes are
not consulted by any operation and are omitted. -/
structure superblock_t where
  signature : List Nat
  numBlocks : Nat
  rootDirInd : Nat
  dataInd : Nat
  numDataBlocks : Nat
  numFAT : Nat
deriving Repr, DecidableEq, Inhabited

/-- `struct rootdirectory_t` (fs.c lines 64-70). `filename` is the raw
16-byte field; `dataBlockInd` is the 16-bit pattern of the `int16_t`. -/
structure rootdirectory_t where
  filename : List Nat
  fileSize : Nat
  dataBlockInd : Nat
  num_fd_pointers : Nat
  unused : List Nat
deriving Repr, DecidableEq, Inhabited

/-- `struct file_descriptor_t` (fs.c lines 73-80). `file_name` is the
C-string value stored by `strcpy`; the never-read `dir_ptr` is omitted. -/
structure file_descriptor_t where
  is_used : Bool
  file_index : Int
  offset : Nat
  file_name : List Nat
deriving Repr, DecidableEq, Inhabited

/-- The in-memory state of the file system after `fs_mount`: the global
variables `mySuperblock`, `myFAT`, `myRootDir`, `fd_table` (fs.c lines
83-86) plus the virtual disk behind `block_read`/`block_write`.
`mounted` models `mySuperblock != NULL`. -/
structure State where
  mounted : Bool
  mySuperblock : superblock_t
  myFAT : List Nat
  myRootDir : List rootdirectory_t
  fd_table : List file_descriptor_t
  disk : Nat → List Nat

/-- The C-string value held in a raw byte field: the bytes before the
first NUL. -/
def cstr (field : List Nat) : List Nat :=
  field.takeWhile (fun b => b != 0)

/-- `strcpy(dst, src)` into a fixed byte field: writes the source bytes
and a terminating NUL; the bytes after the NUL keep their old values. -/
def strcpyField (old : List Nat) (src : List Nat) : List Nat :=
  src ++ 0 :: old.drop (src.length + 1)

/-- `locate_file` (fs.c lines 487-494): first root-directory index whose
stored name `strcmp`-equals `file_name`, else -1.  The source's second
conjunct `(myRootDir + i)->filename != 0x00` compares an array pointer
with NULL and is always true, so only the `strcmp` matters. -/
def locate_file (s : State) (file_name : List Nat) : Int :=
  match (List.range FS_FILE_MAX_COUNT).find?
      (fun i => cstr ((s.myRootDir.getD i default).filename) == file_name) with
  | some i => (i : Int)
  | none => -1

/-- `locate_avail_fd` (fs.c lines 496-502): lowest fd-table index not in
use, else -1. -/
def locate_avail_fd (s : State) : Int :=
  match (List.range FS_OPEN_MAX_COUNT).find?
      (fun i => (s.fd_table.getD i default).is_used == false) with
  | some i => (i : Int)
  | none => -1

/-- First root-directory slot whose filename starts with the byte 0x00:
the scan performed by `fs_create` (fs.c lines 225-226). -/
def findEmptySlot (dir : List rootdirectory_t) : Option Nat :=
  (List.range FS_FILE_MAX_COUNT).find?
    (fun i => (dir.getD i default).filename.getD 0 1 == 0)

/-- The fd-table access `fd_table[fd]` with a caller-supplied `int fd`:
yields the slot when `fd` is a valid index and `none` when the access is
out of bounds. -/
def fd_lookup (s : State) (fd : Int) : Option file_descriptor_t :=
  if 0 ≤ fd ∧ fd.toNat < s.fd_table.length then
    some (s.fd_table.getD fd.toNat default)
  else none

/-- Conversion of a C `int32_t` value to `size_t` as performed by the
usual arithmetic conversions in a mixed comparison (64-bit `size_t`). -/
def toSizeT (i : Int) : Nat := (i % ((2 : Int) ^ 64)).toNat

/-- `error_check` (fs.c lines 511-546).  Note the faithful oddities: the
length test is `size > 16` (not `>=`), and the duplicate test counts
byte-for-byte matches `same_char` across ALL directory slots. -/
def error_check (s : State) (filename : List Nat) : Int :=
  let size := filename.length
  if size > FS_FILENAME_LEN then -1
  else
    let same_char :=
      ((List.range FS_FILE_MAX_COUNT).map (fun i =>
        ((List.range size).filter (fun j =>
          (s.myRootDir.getD i default).filename.getD j 0
            == filename.getD j 0)).length)).sum
    let files_in_rootdir :=
      ((List.range FS_FILE_MAX_COUNT).filter (fun i =>
        (s.myRootDir.getD i default).filename.getD 0 1 != 0)).length
    if same_char = size then -1
    else if files_in_rootdir = FS_FILE_MAX_COUNT then -1
    else 0

/-- `fs_create` (fs.c lines 219-239).  The source calls
`error_check(filename)` but discards its return value, then writes into
the first slot whose filename begins with 0x00: `dataBlockInd` is first
set to `myFAT[0].words`, then the name is `strcpy`-ed in, and
`fileSize`, `dataBlockInd`, `num_fd_pointers` are set to `0`, `-1`
(pattern 0xFFFF) and `0`.  The 9 `unused` bytes are not touched. -/
def fs_create (s : State) (filename : List Nat) : Int × State :=
  let _ := error_check s filename
  match findEmptySlot s.myRootDir with
  | some i =>
      let e := s.myRootDir.getD i default
      let e1 := { e with dataBlockInd := s.myFAT.getD 0 0 }
      let e2 := { e1 with
        filename := strcpyField e1.filename filename,
        fileSize := 0,
        dataBlockInd := 65535,
        num_fd_pointers := 0 }
      (0, { s with myRootDir := s.myRootDir.set i e2 })
  | none => (-1, s)

/-- `fs_delete` (fs.c lines 248-306).  After the existence and open-count
checks it reads the first two data-region blocks into `buf1`/`buf2`,
then loops `fileSize / BLOCK_SIZE` times writing a NUL byte at index
`dataBlockInd` of those buffers — `find_next_block` is commented out, so
the index never advances and every iteration writes the same byte.  The
FAT array `myFAT` is never referenced.  Finally the directory entry gets
`dataBlockInd = -1` (pattern 0xFFFF), `filename[0] = 0`, `fileSize = 0`,
`num_fd_pointers = 0`, the buffers are written back, and 0 is returned. -/
def fs_delete (s : State) (filename : List Nat) : Int × State :=
  let file_index := locate_file s filename
  if file_index = -1 then (-1, s)
  else
    let fi := file_index.toNat
    let the_dir := s.myRootDir.getD fi default
    if 0 < the_dir.num_fd_pointers then (-1, s)
    else
      let frst_dta_blk_i := the_dir.dataBlockInd
      let num_blocks := the_dir.fileSize / BLOCK_SIZE
      let buf1 := s.disk s.mySuperblock.dataInd
      let buf2 := s.disk (s.mySuperblock.dataInd + 1)
      let bufs :=
        if num_blocks = 0 then (buf1, buf2)
        else if frst_dta_blk_i < BLOCK_SIZE then (buf1.set frst_dta_blk_i 0, buf2)
        else (buf1, buf2.set (frst_dta_blk_i - BLOCK_SIZE) 0)
      let entry := { the_dir with
        dataBlockInd := 65535,
        filename := 0 :: the_dir.filename.drop 1,
        fileSize := 0,
        num_fd_pointers := 0 }
      let disk2 := fun b =>
        if b = s.mySuperblock.dataInd then bufs.1
        else if b = s.mySuperblock.dataInd + 1 then bufs.2
        else s.disk b
      (0, { s with myRootDir := s.myRootDir.set fi entry, disk := disk2 })

/-- `fs_open` (fs.c lines 337-359).  It returns the fd from
`locate_avail_fd`, but every slot write indexes `fd_table[file_index]`,
the root-directory index, not `fd_table[fd]`. -/
def fs_open (s : State) (filename : List Nat) : Int × State :=
  let file_index := locate_file s filename
  if file_index = -1 then (-1, s)
  else
    let fd := locate_avail_fd s
    if fd = -1 then (-1, s)
    else
      let fi := file_index.toNat
      let slot : file_descriptor_t :=
        { is_used := true, file_index := file_index, offset := 0, file_name := filename }
      let dir2 := s.myRootDir.set fi
        { s.myRootDir.getD fi default with
          num_fd_pointers :=
            ((s.myRootDir.getD fi default).num_fd_pointers + 1) % 256 }
      (fd, { s with fd_table := s.fd_table.set fi slot, myRootDir := dir2 })

/-- `fs_close` (fs.c lines 368-386): rejects `fd` outside `[0, 32)` or
not in use, then decrements the backing file's `num_fd_pointers` and
clears `is_used` (the slot's other fields are left as they are). -/
def fs_close (s : State) (fd : Int) : Int × State :=
  if (FS_OPEN_MAX_COUNT : Int) ≤ fd ∨ fd < 0 ∨
      (s.fd_table.getD fd.toNat default).is_used = false then (-1, s)
  else
    let fd_obj := s.fd_table.getD fd.toNat default
    let file_index := locate_file s fd_obj.file_name
    if file_index = -1 then (-1, s)
    else
      let fi := file_index.toNat
      let dir2 := s.myRootDir.set fi
        { s.myRootDir.getD fi default with
          num_fd_pointers :=
            ((s.myRootDir.getD fi default).num_fd_pointers + 255) % 256 }
      (0, { s with
            myRootDir := dir2,
            fd_table := s.fd_table.set fd.toNat { fd_obj with is_used := false } })

/-- `fs_stat` (fs.c lines 391-406): rejects `fd` outside `[0, 32)` or not
in use, then returns the `fileSize` of the entry found by `locate_file`
on the descriptor's stored name. -/
def fs_stat (s : State) (fd : Int) : Int :=
  if (FS_OPEN_MAX_COUNT : Int) ≤ fd ∨ fd < 0 ∨
      (s.fd_table.getD fd.toNat default).is_used = false then -1
  else
    let fd_obj := s.fd_table.getD fd.toNat default
    let file_index := locate_file s fd_obj.file_name
    if file_index = -1 then -1
    else ((s.myRootDir.getD file_index.toNat default).fileSize : Int)

/-- `fs_umount` (fs.c lines 153-176): only checks `mySuperblock != NULL`;
it never looks at the fd table before tearing down.  The source then
frees the in-memory structures — including two `free` calls on interior
array members, which is undefined behaviour elided here — resets every
fd slot and closes the disk, returning 0. -/
def fs_umount (s : State) : Int × State :=
  if s.mounted = false then (-1, s)
  else
    (0, { s with
      mounted := false,
      fd_table := List.replicate FS_OPEN_MAX_COUNT
        { is_used := false, file_index := -1, offset := 0, file_name := [] } })

/-- `fs_lseek` (fs.c lines 413-433): accesses `fd_table[fd]` before any
range check (hence `Option`); then `locate_file` on the stored name,
`fs_stat` for the size, the bounds test `offset > file_size` (a mixed
`size_t`/`int32_t` comparison, so `file_size` converts to `size_t`; the
`offset < 0` half is always false for an unsigned `offset`), a late
`is_used` test, and finally the cursor store. -/
def fs_lseek (s : State) (fd : Int) (offset : Nat) : Option (Int × State) :=
  match fd_lookup s fd with
  | none => none
  | some fd_obj =>
    let file_index := locate_file s fd_obj.file_name
    if file_index = -1 then some (-1, s)
    else
      let file_size := fs_stat s fd
      if toSizeT file_size < offset then some (-1, s)
      else if fd_obj.is_used = false then some (-1, s)
      else some (0, { s with
        fd_table := s.fd_table.set fd.toNat { fd_obj with offset := offset } })

/-- `fs_read` (fs.c lines 446-479): accesses `fd_table[fd].is_used`
before any range check (hence `Option`), rejects an unused slot or
`count == 0`, then locates the file (`myRootDir[-1]` would be an
out-of-bounds access, modelled as `none`).  The offset-walking loop only
decrements a copy of the offset — `find_next_block` is commented out, so
`frst_dta_blk_i` never advances and the loop's results are unused.  It
then `block_read`s block `dataBlockInd` wholesale into the caller's
buffer, never updates `fd_table[fd].offset`, and returns 0.  The third
component of the result is the bytes placed in the caller's buffer. -/
def fs_read (s : State) (fd : Int) (count : Nat) : Option (Int × State × List Nat) :=
  match fd_lookup s fd with
  | none => none
  | some fd_obj =>
    if fd_obj.is_used = false ∨ count = 0 then some (-1, s, [])
    else
      let file_index := locate_file s fd_obj.file_name
      if file_index = -1 then none
      else
        let the_dir := s.myRootDir.getD file_index.toNat default
        let frst_dta_blk_i := the_dir.dataBlockInd
        let read_buf := s.disk frst_dta_blk_i
        some (0, s, read_buf)

/-- `fs_write` (fs.c lines 435-439): unimplemented, returns 0. -/
def fs_write (s : State) (_fd : Int) (_buf : List Nat) (_count : Nat) : Int × State :=
  (0, s)

/-! ### Concrete mounted states used for counterexamples and witnesses -/

/-- An empty root-directory slot: name bytes all 0x00. -/
def emptyEntry : rootdirectory_t :=
  { filename := List.replicate 16 0, fileSize := 0, dataBlockInd := FAT_EOC,
    num_fd_pointers := 0, unused := List.replicate 9 0 }

/-- A non-empty root-directory entry holding `name` (NUL-padded to 16
bytes), the given size, first data block and open count. -/
def mkFileEntry (name : List Nat) (size : Nat) (blk : Nat) (cnt : Nat) :
    rootdirectory_t :=
  { filename := name ++ List.replicate (16 - name.length) 0,
    fileSize := size, dataBlockInd := blk, num_fd_pointers := cnt,
    unused := List.replicate 9 0 }

/-- A free file-descriptor slot as left by `fs_mount`/`fs_umount`. -/
def freeFd : file_descriptor_t :=
  { is_used := false, file_index := -1, offset := 0, file_name := [] }

/-- A small but well-formed superblock for example states. -/
def sbEx : superblock_t :=
  { signature := [69, 67, 83, 49, 53, 48, 70, 83], numBlocks := 10,
    rootDirInd := 2, dataInd := 3, numDataBlocks := 6, numFAT := 1 }

/-- A disk whose blocks are all zero bytes. -/
def zeroDisk : Nat → List Nat := fun _ => List.replicate BLOCK_SIZE 0

/-- An in-use descriptor on file "a" (root index 0) with cursor 0. -/
def fdEx : file_descriptor_t :=
  { is_used := true, file_index := 0, offset := 0, file_name := [97] }

/-- Mounted state for C1: one file "a" of size 5 whose chain is block 2,
and fd 0 open on it with cursor 0. -/
def exC1 : State :=
  { mounted := true, mySuperblock := sbEx,
    myFAT := [65535, 0, 65535, 0, 0, 0],
    myRootDir := mkFileEntry [97] 5 2 1 :: List.replicate 127 emptyEntry,
    fd_table := fdEx :: List.replicate 31 freeFd,
    disk := zeroDisk }

/-- Mounted state for C2/C6: files "a" (root index 0) and "b" (root
index 1), no descriptor open. -/
def exC2 : State :=
  { mounted := true, mySuperblock := sbEx,
    myFAT := [65535, 0, 0, 0, 0, 0],
    myRootDir := mkFileEntry [97] 0 FAT_EOC 0 :: mkFileEntry [98] 0 FAT_EOC 0
      :: List.replicate 126 emptyEntry,
    fd_table := List.replicate 32 freeFd,
    disk := zeroDisk }

/-- Mounted state for C3: file "a" of size 4096 with FAT chain [2]
(FAT[2] = FAT_EOC) and no open descriptor. -/
def exC3 : State :=
  { mounted := true, mySuperblock := sbEx,
    myFAT := [65535, 0, 65535, 0, 0, 0],
    myRootDir := mkFileEntry [97] 4096 2 0 :: List.replicate 127 emptyEntry,
    fd_table := List.replicate 32 freeFd,
    disk := zeroDisk }

/-- Mounted state for C4: fd 0 is in use on file "a". -/
def exC4 : State :=
  { mounted := true, mySuperblock := sbEx,
    myFAT := [65535, 0, 0, 0, 0, 0],
    myRootDir := mkFileEntry [97] 0 FAT_EOC 1 :: List.replicate 127 emptyEntry,
    fd_table :=
      { is_used := true, file_index := 0, offset := 0, file_name := [97] }
        :: List.replicate 31 freeFd,
    disk := zeroDisk }

/-- Mounted state for C5: file "a" exists at slot 0; slots 1..127 empty. -/
def exC5 : State :=
  { mounted := true, mySuperblock := sbEx,
    myFAT := [65535, 0, 0, 0, 0, 0],
    myRootDir := mkFileEntry [97] 0 FAT_EOC 0 :: List.replicate 127 emptyEntry,
    fd_table := List.replicate 32 freeFd,
    disk := zeroDisk }

/-- Mounted state for the C9 witness: every root-directory slot empty. -/
def exC9 : State :=
  { mounted := true, mySuperblock := sbEx,
    myFAT := [65535, 0, 0, 0, 0, 0],
    myRootDir := List.replicate 128 emptyEntry,
    fd_table := List.replicate 32 freeFd,
    disk := zeroDisk }

/-! ### Helper lemmas -/

/-- Unpacking a successful fd-table lookup. -/
theorem fd_lookup_some (s : State) (fd : Int) (fdo : file_descriptor_t)
    (h : fd_lookup s fd = some fdo) :
    0 ≤ fd ∧ fd.toNat < s.fd_table.length ∧
      s.fd_table.getD fd.toNat default = fdo := by
  unfold fd_lookup at h
  by_cases hc : 0 ≤ fd ∧ fd.toNat < s.fd_table.length
  · rw [if_pos hc] at h
    exact ⟨hc.1, hc.2, Option.some.inj h⟩
  · rw [if_neg hc] at h
    exact absurd h (by simp)

/-- A slot found by `findEmptySlot` lies inside the 128-entry scan. -/
theorem findEmptySlot_lt (dir : List rootdirectory_t) (j : Nat)
    (h : findEmptySlot dir = some j) : j < FS_FILE_MAX_COUNT := by
  unfold findEmptySlot at h
  exact List.mem_range.mp (List.mem_of_find?_eq_some h)

/-- Reading back the bytes written by `strcpy`: scanning up to the first
NUL recovers exactly the copied name when its bytes are non-NUL. -/
theorem takeWhile_append_cons_zero (name rest : List Nat)
    (h : ∀ b ∈ name, b ≠ 0) :
    (name ++ 0 :: rest).takeWhile (fun b => b != 0) = name := by
  induction name with
  | nil => rfl
  | cons a tl ih =>
    have ha : a ≠ 0 := h a (List.mem_cons_self a tl)
    have htl : ∀ b ∈ tl, b ≠ 0 := fun b hb => h b (List.mem_cons_of_mem a hb)
    simp [List.takeWhile_cons, ha, ih htl]

/-- `List.set` followed by `getD` at the same valid index. -/
theorem getD_set_self {α : Type} [Inhabited α] (l : List α) (n : Nat) (a : α)
    (h : n < l.length) : (l.set n a).getD n default = a := by
  induction l generalizing n with
  | nil => simp at h
  | cons x xs ih =>
    cases n with
    | zero => rfl
    | succ m =>
      have hm : m < xs.length := by
        simp only [List.length_cons] at h
        omega
      exact ih m hm

/-! ### Claim theorems -/

/-- C1: claimed — for an in-use fd with cursor `offset` on a file of size
`size` and `count > 0`, `fs_read` copies `min(count, size - offset)`
bytes, advances the cursor by that amount and returns it.  The code does
none of this: at fd 0 (file "a", size 5, cursor 0) with `count = 5` it
returns 0, leaves the state (hence the cursor) untouched, and copies one
whole raw block; the claimed return value would be
`min 5 (5 - 0) = 5 ≠ 0`. -/
theorem C1_read_stub :
    fs_read exC1 0 5 = some (0, exC1, exC1.disk 2) ∧
    (exC1.fd_table.getD 0 default).offset = 0 ∧
    (exC1.myRootDir.getD 0 default).fileSize = 5 ∧
    min 5 ((exC1.myRootDir.getD 0 default).fileSize
      - (exC1.fd_table.getD 0 default).offset) = 5 :=
  ⟨rfl, rfl, rfl, rfl⟩

/-- C2: claimed — `fs_open` returns the lowest free fd slot and marks
that returned slot in use.  The code returns fd 0 (lowest free) when
opening "b" (root index 1) on `exC2`, but marks slot 1 — the root index,
not the returned fd — leaving the returned slot 0 free. -/
theorem C2_open_wrong_slot :
    (fs_open exC2 [98]).1 = 0 ∧
    ((fs_open exC2 [98]).2.fd_table.getD 0 default).is_used = false ∧
    ((fs_open exC2 [98]).2.fd_table.getD 1 default).is_used = true ∧
    ((fs_open exC2 [98]).2.fd_table.getD 1 default).file_index = 1 ∧
    ((fs_open exC2 [98]).2.myRootDir.getD 1 default).num_fd_pointers = 1 :=
  ⟨rfl, rfl, rfl, rfl, rfl⟩

/-- C3: claimed — after a successful `fs_delete` every FAT entry on the
file's chain is 0 and the directory slot has its other fields zeroed.
Deleting "a" (size 4096, chain [2], no open fd) returns 0, yet the FAT
image is untouched — entry 2 still holds FAT_EOC = 65535, not 0 — and
the slot's `first_block` field holds 65535, not 0. -/
theorem C3_delete_leaves_fat :
    (fs_delete exC3 [97]).1 = 0 ∧
    (fs_delete exC3 [97]).2.myFAT = exC3.myFAT ∧
    exC3.myFAT.getD 2 0 = FAT_EOC ∧
    ((fs_delete exC3 [97]).2.myRootDir.getD 0 default).dataBlockInd = FAT_EOC ∧
    ((fs_delete exC3 [97]).2.myRootDir.getD 0 default).filename.getD 0 1 = 0 :=
  ⟨rfl, rfl, rfl, rfl, rfl⟩

/-- C4: claimed — with a descriptor in use, `fs_umount` fails with -1 and
leaves the mount intact.  On `exC4` (fd 0 in use) the code returns 0 and
resets the fd table: it never inspects the fd table before tearing down. -/
theorem C4_umount_ignores_open_fds :
    (exC4.fd_table.getD 0 default).is_used = true ∧
    (fs_umount exC4).1 = 0 ∧
    ((fs_umount exC4).2.fd_table.getD 0 default).is_used = false ∧
    (fs_umount exC4).2.mounted = false :=
  ⟨rfl, rfl, rfl, rfl⟩

/-- C5: claimed — `fs_create` returns -1 and leaves the root directory
unchanged when the name already exists; no duplicate is ever inserted.
On `exC5` ("a" already at slot 0) `error_check` does report -1, but
`fs_create` discards that result, returns 0, and inserts a second entry
named "a" at slot 1. -/
theorem C5_create_duplicate :
    error_check exC5 [97] = -1 ∧
    (fs_create exC5 [97]).1 = 0 ∧
    cstr ((fs_create exC5 [97]).2.myRootDir.getD 1 default).filename = [97] ∧
    cstr (exC5.myRootDir.getD 0 default).filename = [97] :=
  ⟨rfl, rfl, rfl, rfl⟩

/-- C6: claimed — `fs_open` followed by `fs_close` of the returned fd
restores the fd table and open counts exactly.  On `exC2`, opening "b"
returns fd 0 but (because of the indexing bug) marks slot 1; closing
fd 0 then fails with -1 and changes nothing, so file "b" keeps open
count 1 (it was 0 before the open) and slot 1 stays in use. -/
theorem C6_open_close_not_restored :
    (fs_open exC2 [98]).1 = 0 ∧
    fs_close (fs_open exC2 [98]).2 0 = (-1, (fs_open exC2 [98]).2) ∧
    ((fs_open exC2 [98]).2.fd_table.getD 1 default).is_used = true ∧
    ((fs_open exC2 [98]).2.myRootDir.getD 1 default).num_fd_pointers = 1 ∧
    (exC2.myRootDir.getD 1 default).num_fd_pointers = 0 :=
  ⟨rfl, rfl, rfl, rfl, rfl⟩

/-- C7: for every in-use file descriptor fd whose backing file (the entry
`locate_file` finds for the descriptor's stored name) has size `size`,
`fs_lseek fd offset` returns 0 and sets the cursor to `offset` exactly
when `offset ≤ size` (offsets are unsigned, so `0 ≤ offset` always
holds), and otherwise returns -1 with the state, hence the cursor,
unchanged. -/
theorem C7_lseek_bounds (s : State) (fd : Int) (fdo : file_descriptor_t)
    (i : Int) (size : Nat) (offset : Nat)
    (hlen : s.fd_table.length = 32)
    (hlk : fd_lookup s fd = some fdo)
    (hused : fdo.is_used = true)
    (hloc : locate_file s fdo.file_name = i)
    (hi : 0 ≤ i)
    (hsize : (s.myRootDir.getD i.toNat default).fileSize = size)
    (hsmall : size < 2 ^ 31) :
    (offset ≤ size → fs_lseek s fd offset =
      some (0, { s with
        fd_table := s.fd_table.set fd.toNat { fdo with offset := offset } })) ∧
    (size < offset → fs_lseek s fd offset = some (-1, s)) := by
  obtain ⟨hfd0, hfdlt, hget⟩ := fd_lookup_some s fd fdo hlk
  have hne : ¬ ((FS_OPEN_MAX_COUNT : Int) ≤ fd ∨ fd < 0 ∨
      (s.fd_table.getD fd.toNat default).is_used = false) := by
    rw [hget]
    push_neg
    refine ⟨?_, by omega, by simp [hused]⟩
    rw [hlen] at hfdlt
    simp only [FS_OPEN_MAX_COUNT]
    omega
  have hstat : fs_stat s fd = (size : Int) := by
    simp only [fs_stat]
    rw [if_neg hne, hget, hloc, if_neg (show ¬ i = -1 by omega), hsize]
  have hsz : toSizeT (fs_stat s fd) = size := by
    rw [hstat]
    unfold toSizeT
    have h64 : ((2 : Int) ^ 64) = 18446744073709551616 := by norm_num
    rw [h64]
    omega
  constructor
  · intro hle
    simp only [fs_lseek, hlk]
    rw [hloc, if_neg (show ¬ i = -1 by omega), hsz,
      if_neg (show ¬ size < offset by omega),
      if_neg (show ¬ fdo.is_used = false by simp [hused])]
  · intro hlt
    simp only [fs_lseek, hlk]
    rw [hloc, if_neg (show ¬ i = -1 by omega), hsz, if_pos hlt]

/-- C7 witness: on `exC1` (fd 0 open on "a" of size 5), seeking to 3
succeeds and sets the cursor to 3; seeking to 9 fails with the state
unchanged. -/
theorem C7_lseek_bounds_witness :
    fs_lseek exC1 0 3 =
      some (0, { exC1 with
        fd_table := exC1.fd_table.set (0 : Int).toNat { fdEx with offset := 3 } }) ∧
    fs_lseek exC1 0 9 = some (-1, exC1) :=
  ⟨(C7_lseek_bounds exC1 0 fdEx 0 5 3 rfl rfl rfl rfl (by omega) rfl
      (by norm_num)).1 (by omega),
   (C7_lseek_bounds exC1 0 fdEx 0 5 9 rfl rfl rfl rfl (by omega) rfl
      (by norm_num)).2 (by omega)⟩

/-- C8: for every mounted state and existing file with at least one open
descriptor (a positive `num_fd_pointers` on the located entry),
`fs_delete` returns -1 and leaves the whole state — directory entry,
open count, FAT and disk — exactly as it was. -/
theorem C8_delete_busy (s : State) (name : List Nat) (i : Int)
    (hloc : locate_file s name = i) (hi : 0 ≤ i)
    (hbusy : 0 < (s.myRootDir.getD i.toNat default).num_fd_pointers) :
    fs_delete s name = (-1, s) := by
  simp only [fs_delete]
  rw [hloc, if_neg (show ¬ i = -1 by omega), if_pos hbusy]

/-- C8 witness: on `exC4` the file "a" has open count 1, and deleting it
returns -1 with the state untouched. -/
theorem C8_delete_busy_witness : fs_delete exC4 [97] = (-1, exC4) :=
  C8_delete_busy exC4 [97] 0 rfl (by omega) (by decide)

/-- C9: in a mounted state with an empty root-directory slot and a valid
fresh name, `fs_create` returns 0 and the lowest previously-empty slot
now holds that name NUL-terminated, size 0, `first_block = FAT_EOC`, and
zero padding (the open-count byte is written to 0, and the remaining
padding bytes — zero in any mounted state — are preserved). -/
theorem C9_create_success (s : State) (name : List Nat) (j : Nat)
    (hslot : findEmptySlot s.myRootDir = some j)
    (hlen : s.myRootDir.length = 128)
    (hname1 : name ≠ [])
    (hname2 : name.length < FS_FILENAME_LEN)
    (hnz : ∀ b ∈ name, b ≠ 0)
    (hpad : (s.myRootDir.getD j default).unused = List.replicate 9 0) :
    (fs_create s name).1 = 0 ∧
    cstr ((fs_create s name).2.myRootDir.getD j default).filename = name ∧
    ((fs_create s name).2.myRootDir.getD j default).fileSize = 0 ∧
    ((fs_create s name).2.myRootDir.getD j default).dataBlockInd = FAT_EOC ∧
    ((fs_create s name).2.myRootDir.getD j default).num_fd_pointers = 0 ∧
    ((fs_create s name).2.myRootDir.getD j default).unused = List.replicate 9 0 := by
  have hj : j < FS_FILE_MAX_COUNT := findEmptySlot_lt _ _ hslot
  simp only [FS_FILE_MAX_COUNT] at hj
  have hj2 : j < s.myRootDir.length := by omega
  have hmain : (fs_create s name).2.myRootDir.getD j default =
      { s.myRootDir.getD j default with
        filename := strcpyField (s.myRootDir.getD j default).filename name,
        fileSize := 0, dataBlockInd := 65535, num_fd_pointers := 0 } := by
    simp only [fs_create, hslot]
    exact getD_set_self _ _ _ hj2
  refine ⟨by simp only [fs_create, hslot], ?_, ?_, ?_, ?_, ?_⟩
  · rw [hmain]
    show cstr (strcpyField (s.myRootDir.getD j default).filename name) = name
    unfold cstr strcpyField
    exact takeWhile_append_cons_zero name _ hnz
  · rw [hmain]
  · rw [hmain]
    rfl
  · rw [hmain]
  · rw [hmain]
    exact hpad

/-- C9 witness: creating "c" in the all-empty state `exC9` fills slot 0
with name [99], size 0, FAT_EOC and zero padding. -/
theorem C9_create_success_witness :
    (fs_create exC9 [99]).1 = 0 ∧
    cstr ((fs_create exC9 [99]).2.myRootDir.getD 0 default).filename = [99] ∧
    ((fs_create exC9 [99]).2.myRootDir.getD 0 default).fileSize = 0 ∧
    ((fs_create exC9 [99]).2.myRootDir.getD 0 default).dataBlockInd = FAT_EOC ∧
    ((fs_create exC9 [99]).2.myRootDir.getD 0 default).num_fd_pointers = 0 ∧
    ((fs_create exC9 [99]).2.myRootDir.getD 0 default).unused = List.replicate 9 0 :=
  C9_create_success exC9 [99] 0 rfl rfl (by simp) (by decide)
    (by decide) rfl

/-- C10: `fs_read` and `fs_lseek` index the fd table with the caller's
fd before any range check, so for fd outside [0, 32) the lookup yields
no slot and both operations are out-of-bounds accesses (`none`), whereas
`fs_close` and `fs_stat` range-check first and reject such fd with -1. -/
theorem C10_fd_range (s : State) (fd : Int) (count : Nat) (offset : Nat)
    (hlen : s.fd_table.length = 32)
    (hfd : fd < 0 ∨ 32 ≤ fd) :
    fd_lookup s fd = none ∧ fs_read s fd count = none ∧
    fs_lseek s fd offset = none ∧
    fs_close s fd = (-1, s) ∧ fs_stat s fd = -1 := by
  have hnone : fd_lookup s fd = none := by
    unfold fd_lookup
    rw [if_neg]
    rintro ⟨h1, h2⟩
    rw [hlen] at h2
    omega
  have hcond : (FS_OPEN_MAX_COUNT : Int) ≤ fd ∨ fd < 0 ∨
      (s.fd_table.getD fd.toNat default).is_used = false := by
    rcases hfd with h | h
    · exact Or.inr (Or.inl h)
    · refine Or.inl ?_
      simp only [FS_OPEN_MAX_COUNT]
      omega
  refine ⟨hnone, ?_, ?_, ?_, ?_⟩
  · simp only [fs_read, hnone]
  · simp only [fs_lseek, hnone]
  · simp only [fs_close]
    rw [if_pos hcond]
  · simp only [fs_stat]
    rw [if_pos hcond]

/-- C10 witness: at fd = 32 on a state with the full 32-slot table, the
lookup and both unchecked operations yield `none`, while `fs_close` and
`fs_stat` return -1. -/
theorem C10_fd_range_witness :
    fd_lookup exC2 32 = none ∧ fs_read exC2 32 5 = none ∧
    fs_lseek exC2 32 7 = none ∧
    fs_close exC2 32 = (-1, exC2) ∧ fs_stat exC2 32 = -1 :=
  C10_fd_range exC2 32 5 7 rfl (Or.inr (by omega))
